import Mathlib

/-!
Verification of the feedback-analytics front-end's data layer.

The development shallowly embeds, in Lean 4:
  * the `FeedbackSnapshot` record and the aggregation operations of the
    analytics processor (the processor module itself is absent from the
    source tree, so those operations are modelled from the specification,
    as marked on each definition);
  * the pure core of the `useProcessedAnalytics` hook
    (src/hooks/useAnalyticsData.ts);
  * the drill-down panel state machine of `useAnalyticsDrillDown`
    (src/hooks/useAnalyticsData.ts);
  * the derived-metrics computation and the filter-change handler of the
    executive dashboard (src/app/(main)/executive/page.tsx);
  * the CSV field escaping helper of src/utils/analyticsExport.ts.

JS numbers are modelled as rationals (ℚ), JS strings as Lean `String`
(or `List Char` for the character-level CSV escaping), absent/undefined
values as `Option`.  `Number(x.toFixed(k))` is modelled as rounding to k
decimal places; `Math.round` as `round`.
-/

/-- Lecture type enum: classroom (LECTURE) vs practical (LAB) sessions. -/
inductive LectureType
  | lecture
  | lab
deriving DecidableEq

/-- One feedback response record for a subject/faculty/lecture-type
combination (interface `FeedbackSnapshot`, src/interfaces/analytics).
`rating` is optional: null ratings are excluded from means. -/
structure FeedbackSnapshot where
  studentId : String
  subjectId : String
  subjectName : String
  facultyId : String
  facultyName : String
  divisionId : String
  divisionName : String
  departmentId : String
  departmentName : String
  academicYearId : String
  academicYearString : String
  semesterId : String
  semesterNumber : Nat
  lectureType : LectureType
  rating : Option ℚ
  questionCategoryId : String
  questionCategoryName : String
deriving DecidableEq

/-- The optional scope filters accepted by the analytics hooks
(interface `AnalyticsFilterParams`, src/interfaces/analytics; the
interface file is absent from the tree, the five keys are the ones the
specification lists and the source uses). -/
structure AnalyticsFilterParams where
  academicYearId : Option String := none
  departmentId : Option String := none
  semesterId : Option String := none
  divisionId : Option String := none
  subjectId : Option String := none
deriving DecidableEq

/-- The ratings of a snapshot list that are present (non-null). -/
def validRatings (l : List FeedbackSnapshot) : List ℚ :=
  l.filterMap (·.rating)

/-- Number of non-null ratings. -/
def ratingCount (l : List FeedbackSnapshot) : Nat :=
  (validRatings l).length

/-- Mean of the non-null ratings (0 when there are none, by the ℚ
division convention). -/
def meanRatings (l : List FeedbackSnapshot) : ℚ :=
  (validRatings l).sum / (ratingCount l : ℚ)

/-- Mean of the non-null ratings, `none` when there are none. -/
def meanRatingsOpt (l : List FeedbackSnapshot) : Option ℚ :=
  if ratingCount l = 0 then none else some (meanRatings l)

/-- Distinct values of a string key, in first-seen order. -/
def distinctBy (f : FeedbackSnapshot → String) (l : List FeedbackSnapshot) :
    List String :=
  (l.map f).dedup

/-- The snapshots whose key `f` equals `k`. -/
def snapshotsWith (f : FeedbackSnapshot → String) (k : String)
    (l : List FeedbackSnapshot) : List FeedbackSnapshot :=
  l.filter (fun s => decide (f s = k))

/-- Name lookup: the `g`-field of the first snapshot of the list. -/
def firstName (g : FeedbackSnapshot → String) (l : List FeedbackSnapshot) :
    String :=
  (l.head?.map g).getD ""

/-- JS `Math.round`, i.e. round half up, on rationals. -/
def jsRound (q : ℚ) : ℤ := round q

/-- JS `Number(x.toFixed(1))`: rounding to one decimal place. -/
def toFixed1 (q : ℚ) : ℚ := (round (10 * q) : ℚ) / 10

/-- JS `Number(x.toFixed(2))`: rounding to two decimal places. -/
def toFixed2 (q : ℚ) : ℚ := (round (100 * q) : ℚ) / 100

/-- Output of `processOverallStats`: count, mean rating, distinct counts
of subjects/faculty/students/divisions/departments. -/
structure OverallStats where
  totalResponses : Nat
  averageRating : ℚ
  uniqueSubjects : Nat
  uniqueFaculty : Nat
  uniqueStudents : Nat
  uniqueDivisions : Nat
  uniqueDepartments : Nat
deriving DecidableEq

/-- Modelled from the spec: `AnalyticsDataProcessor.processOverallStats`
(src/utils/analyticsProcessor.ts is absent from the tree).  Returns null
only when the snapshot list is empty; otherwise the response count, the
mean of the non-null ratings and the set-cardinality distinct counts of
the id fields. -/
def processOverallStats (l : List FeedbackSnapshot) : Option OverallStats :=
  match l with
  | [] => none
  | _ :: _ =>
    some
      { totalResponses := l.length
        averageRating := meanRatings l
        uniqueSubjects := (distinctBy (·.subjectId) l).length
        uniqueFaculty := (distinctBy (·.facultyId) l).length
        uniqueStudents := (distinctBy (·.studentId) l).length
        uniqueDivisions := (distinctBy (·.divisionId) l).length
        uniqueDepartments := (distinctBy (·.departmentId) l).length }

/-- One row of `processSubjectRatings`: per-subject lecture/lab segment
means and counts plus their response-weighted combination. -/
structure SubjectRatingEntry where
  subjectId : String
  subjectName : String
  lectureAverageRating : Option ℚ
  lectureResponses : Nat
  labAverageRating : Option ℚ
  labResponses : Nat
  overallAverageRating : Option ℚ
  totalOverallResponses : Nat
  uniqueFaculty : Nat
  uniqueDivisions : Nat
deriving DecidableEq

/-- Modelled from the spec: `AnalyticsDataProcessor.processSubjectRatings`
(module absent).  One entry per distinct subjectId; the subject's
snapshots are partitioned into LECTURE/LAB, each segment reports its mean
over non-null ratings (null when the segment has no ratings, count 0) and
the overall rating is the response-weighted mean of the two segments. -/
def processSubjectRatings (l : List FeedbackSnapshot) :
    List SubjectRatingEntry :=
  (distinctBy (·.subjectId) l).map (fun sid =>
    let ss := snapshotsWith (·.subjectId) sid l
    let lec := ss.filter (fun s => decide (s.lectureType = LectureType.lecture))
    let lab := ss.filter (fun s => decide (s.lectureType = LectureType.lab))
    let lecCount := ratingCount lec
    let labCount := ratingCount lab
    { subjectId := sid
      subjectName := firstName (·.subjectName) ss
      lectureAverageRating := meanRatingsOpt lec
      lectureResponses := lecCount
      labAverageRating := meanRatingsOpt lab
      labResponses := labCount
      overallAverageRating :=
        if lecCount + labCount = 0 then none
        else
          some ((meanRatings lec * lecCount + meanRatings lab * labCount) /
            ((lecCount + labCount : Nat) : ℚ))
      totalOverallResponses := lecCount + labCount
      uniqueFaculty := (distinctBy (·.facultyId) ss).length
      uniqueDivisions := (distinctBy (·.divisionId) ss).length })

/-- One row of `processFacultyPerformance`. -/
structure FacultyPerformanceEntry where
  facultyId : String
  facultyName : String
  averageRating : ℚ
  totalResponses : Nat
  rank : Nat
deriving DecidableEq

/-- Modelled from the spec:
`AnalyticsDataProcessor.processFacultyPerformance` (module absent).  One
entry per distinct facultyId with mean rating and total responses, sorted
descending by mean rating (stable for ties) with `rank` 1 at the top. -/
def processFacultyPerformance (l : List FeedbackSnapshot) :
    List FacultyPerformanceEntry :=
  let base := (distinctBy (·.facultyId) l).map (fun fid =>
    let ss := snapshotsWith (·.facultyId) fid l
    { facultyId := fid
      facultyName := firstName (·.facultyName) ss
      averageRating := meanRatings ss
      totalResponses := ss.length
      rank := 0 : FacultyPerformanceEntry })
  let sorted := base.insertionSort
    (fun a b => b.averageRating ≤ a.averageRating)
  sorted.enum.map (fun p => { p.2 with rank := p.1 + 1 })

/-- One row of `processDivisionComparisons`. -/
structure DivisionComparisonEntry where
  divisionId : String
  divisionName : String
  averageRating : ℚ
  responseCount : Nat
deriving DecidableEq

/-- Modelled from the spec:
`AnalyticsDataProcessor.processDivisionComparisons` (module absent).  One
entry per distinct divisionId: mean rating and response count. -/
def processDivisionComparisons (l : List FeedbackSnapshot) :
    List DivisionComparisonEntry :=
  (distinctBy (·.divisionId) l).map (fun did =>
    let ss := snapshotsWith (·.divisionId) did l
    { divisionId := did
      divisionName := firstName (·.divisionName) ss
      averageRating := meanRatings ss
      responseCount := ss.length })

/-- Output of `processLectureLabComparison`: aggregate lecture vs lab
means with their counts. -/
structure LectureLabComparison where
  lectureAverageRating : Option ℚ
  lectureResponses : Nat
  labAverageRating : Option ℚ
  labResponses : Nat
deriving DecidableEq

/-- Modelled from the spec:
`AnalyticsDataProcessor.processLectureLabComparison` (module absent).
Null when the snapshot list is empty, otherwise the overall lecture and
lab means with their counts. -/
def processLectureLabComparison (l : List FeedbackSnapshot) :
    Option LectureLabComparison :=
  match l with
  | [] => none
  | _ :: _ =>
    let lec := l.filter (fun s => decide (s.lectureType = LectureType.lecture))
    let lab := l.filter (fun s => decide (s.lectureType = LectureType.lab))
    some
      { lectureAverageRating := meanRatingsOpt lec
        lectureResponses := ratingCount lec
        labAverageRating := meanRatingsOpt lab
        labResponses := ratingCount lab }

/-- Output of `getFilteringOptions`: the distinct id sets present in the
snapshots, for populating UI filter controls. -/
structure FilteringOptions where
  academicYears : List String
  departments : List String
  semesters : List String
  divisions : List String
  subjects : List String
  faculties : List String
deriving DecidableEq

/-- Modelled from the spec: `AnalyticsDataProcessor.getFilteringOptions`
(module absent).  Null for an empty snapshot list (the hook types this
view as nullable and the spec's empty-input rule returns null scalars);
otherwise the distinct sets of years, departments, semesters, divisions,
subjects and faculty present. -/
def getFilteringOptions (l : List FeedbackSnapshot) :
    Option FilteringOptions :=
  match l with
  | [] => none
  | _ :: _ =>
    some
      { academicYears := distinctBy (·.academicYearId) l
        departments := distinctBy (·.departmentId) l
        semesters := distinctBy (·.semesterId) l
        divisions := distinctBy (·.divisionId) l
        subjects := distinctBy (·.subjectId) l
        faculties := distinctBy (·.facultyId) l }

/-- One (year, department) cell of the year-by-department trend table. -/
structure YearDeptCell where
  departmentId : String
  departmentName : String
  averageRating : ℚ
  responseCount : Nat
deriving DecidableEq

/-- One row (one academic year) of the year-by-department trend table. -/
structure YearDeptTrend where
  academicYearId : String
  academicYearString : String
  departmentData : List YearDeptCell
deriving DecidableEq

/-- Modelled from the spec:
`AnalyticsDataProcessor.processAcademicYearDepartmentTrends` (module
absent).  Group by academic year, then by department within the year:
mean and count per (year, department) cell. -/
def processAcademicYearDepartmentTrends (l : List FeedbackSnapshot) :
    List YearDeptTrend :=
  (distinctBy (·.academicYearId) l).map (fun yid =>
    let ys := snapshotsWith (·.academicYearId) yid l
    { academicYearId := yid
      academicYearString := firstName (·.academicYearString) ys
      departmentData := (distinctBy (·.departmentId) ys).map (fun did =>
        let ds := snapshotsWith (·.departmentId) did ys
        { departmentId := did
          departmentName := firstName (·.departmentName) ds
          averageRating := meanRatings ds
          responseCount := ds.length }) })

/-- One per-year point of a semester's cross-year series. -/
structure SemesterYearPoint where
  academicYearId : String
  academicYearString : String
  averageRating : ℚ
  responseCount : Nat
deriving DecidableEq

/-- One row (one semester number) of the semester trend table. -/
structure SemesterTrendEntry where
  semesterNumber : Nat
  academicYearData : List SemesterYearPoint
deriving DecidableEq

/-- Modelled from the spec:
`AnalyticsDataProcessor.processAcademicYearSemesterTrends` (module
absent).  Group by semester number, listing the per-academic-year series
of (mean, count) for that semester. -/
def processAcademicYearSemesterTrends (l : List FeedbackSnapshot) :
    List SemesterTrendEntry :=
  ((l.map (·.semesterNumber)).dedup).map (fun sn =>
    let ss := l.filter (fun s => decide (s.semesterNumber = sn))
    { semesterNumber := sn
      academicYearData := (distinctBy (·.academicYearId) ss).map (fun yid =>
        let ys := snapshotsWith (·.academicYearId) yid ss
        { academicYearId := yid
          academicYearString := firstName (·.academicYearString) ys
          averageRating := meanRatings ys
          responseCount := ys.length }) })

/-- One (year, division) cell of the year-by-division trend table. -/
structure YearDivCell where
  divisionId : String
  divisionName : String
  averageRating : ℚ
  responseCount : Nat
deriving DecidableEq

/-- One row (one academic year) of the year-by-division trend table. -/
structure YearDivTrend where
  academicYearId : String
  academicYearString : String
  divisionData : List YearDivCell
deriving DecidableEq

/-- Modelled from the spec:
`AnalyticsDataProcessor.processAcademicYearDivisionTrends` (module
absent).  Group by academic year, then by division within the year. -/
def processAcademicYearDivisionTrends (l : List FeedbackSnapshot) :
    List YearDivTrend :=
  (distinctBy (·.academicYearId) l).map (fun yid =>
    let ys := snapshotsWith (·.academicYearId) yid l
    { academicYearId := yid
      academicYearString := firstName (·.academicYearString) ys
      divisionData := (distinctBy (·.divisionId) ys).map (fun did =>
        let ds := snapshotsWith (·.divisionId) did ys
        { divisionId := did
          divisionName := firstName (·.divisionName) ds
          averageRating := meanRatings ds
          responseCount := ds.length }) })

/-- One (subject, faculty) cell of the subject-faculty cross-tab. -/
structure SubjectFacultyPerfEntry where
  subjectId : String
  facultyId : String
  averageRating : ℚ
  responseCount : Nat
deriving DecidableEq

/-- Modelled from the spec:
`AnalyticsDataProcessor.processSubjectFacultyPerformance` (module
absent).  Cross-tabulation of (subject, faculty) pairs with mean and
count. -/
def processSubjectFacultyPerformance (l : List FeedbackSnapshot) :
    List SubjectFacultyPerfEntry :=
  ((l.map (fun s => (s.subjectId, s.facultyId))).dedup).map (fun p =>
    let ss := l.filter
      (fun s => decide (s.subjectId = p.1 ∧ s.facultyId = p.2))
    { subjectId := p.1
      facultyId := p.2
      averageRating := meanRatings ss
      responseCount := ss.length })

/-- Per-faculty row of the single-subject detail breakdown. -/
structure FacultyDetailEntry where
  facultyId : String
  facultyName : String
  averageRating : ℚ
  responseCount : Nat
  divisions : List String
deriving DecidableEq

/-- Per-division row of the single-subject detail breakdown. -/
structure DivisionDetailEntry where
  divisionId : String
  divisionName : String
  lectureAverageRating : Option ℚ
  labAverageRating : Option ℚ
  overallAverageRating : ℚ
  responseCount : Nat
deriving DecidableEq

/-- Per-question-category row of the single-subject detail breakdown. -/
structure CategoryDetailEntry where
  questionCategoryId : String
  questionCategoryName : String
  averageRating : ℚ
deriving DecidableEq

/-- Single-subject nested breakdown by faculty, division and question
category. -/
structure SubjectFacultyDetailPerformance where
  subjectId : String
  subjectName : String
  facultyBreakdown : List FacultyDetailEntry
  divisionBreakdown : List DivisionDetailEntry
  categoryBreakdown : List CategoryDetailEntry
deriving DecidableEq

/-- Modelled from the spec:
`AnalyticsDataProcessor.processSubjectFacultyDetailPerformance` (module
absent).  For one subject only: faculty breakdown (mean, count, divisions
taught), division breakdown (lecture/lab/overall mean, count) and
question-category breakdown; null if the subjectId does not appear in the
snapshots. -/
def processSubjectFacultyDetailPerformance (l : List FeedbackSnapshot)
    (sid : String) : Option SubjectFacultyDetailPerformance :=
  if sid ∈ l.map (·.subjectId) then
    let ss := snapshotsWith (·.subjectId) sid l
    some
      { subjectId := sid
        subjectName := firstName (·.subjectName) ss
        facultyBreakdown := (distinctBy (·.facultyId) ss).map (fun fid =>
          let fs := snapshotsWith (·.facultyId) fid ss
          { facultyId := fid
            facultyName := firstName (·.facultyName) fs
            averageRating := meanRatings fs
            responseCount := fs.length
            divisions := distinctBy (·.divisionId) fs })
        divisionBreakdown := (distinctBy (·.divisionId) ss).map (fun did =>
          let ds := snapshotsWith (·.divisionId) did ss
          let lec := ds.filter
            (fun s => decide (s.lectureType = LectureType.lecture))
          let lab := ds.filter
            (fun s => decide (s.lectureType = LectureType.lab))
          { divisionId := did
            divisionName := firstName (·.divisionName) ds
            lectureAverageRating := meanRatingsOpt lec
            labAverageRating := meanRatingsOpt lab
            overallAverageRating := meanRatings ds
            responseCount := ds.length })
        categoryBreakdown :=
          (distinctBy (·.questionCategoryId) ss).map (fun cid =>
            let cs := snapshotsWith (·.questionCategoryId) cid ss
            { questionCategoryId := cid
              questionCategoryName := firstName (·.questionCategoryName) cs
              averageRating := meanRatings cs })
      }
  else none

/-- The record produced by the `useProcessedAnalytics` hook
(src/hooks/useAnalyticsData.ts, interface `ProcessedAnalyticsData`). -/
structure ProcessedAnalyticsData where
  overallStats : Option OverallStats
  subjectRatings : List SubjectRatingEntry
  divisionComparisons : List DivisionComparisonEntry
  facultyPerformance : List FacultyPerformanceEntry
  lectureLabComparison : Option LectureLabComparison
  filteringOptions : Option FilteringOptions
  rawSnapshots : List FeedbackSnapshot
  academicYearDepartmentTrends : List YearDeptTrend
  academicYearSemesterTrends : List SemesterTrendEntry
  academicYearDivisionPerformance : List YearDivTrend
  batchComparisons : List DivisionComparisonEntry
  subjectFacultyPerformance : List SubjectFacultyPerfEntry
  subjectFacultyDetailPerformance : Option SubjectFacultyDetailPerformance
deriving DecidableEq

/-- The record the hook returns when no data has been fetched (the early
return of the `useMemo` body in `useProcessedAnalytics`). -/
def emptyProcessedAnalyticsData : ProcessedAnalyticsData :=
  { overallStats := none
    subjectRatings := []
    divisionComparisons := []
    facultyPerformance := []
    lectureLabComparison := none
    filteringOptions := none
    rawSnapshots := []
    academicYearDepartmentTrends := []
    academicYearSemesterTrends := []
    academicYearDivisionPerformance := []
    batchComparisons := []
    subjectFacultyPerformance := []
    subjectFacultyDetailPerformance := none }

/-- The pure core of `useProcessedAnalytics`
(src/hooks/useAnalyticsData.ts).  `rawData` is `none` when no data was
fetched or the fetched record has no `feedbackSnapshots` field (the
`!rawData || !rawData.feedbackSnapshots` guard); otherwise it carries the
snapshot array.  A selected division/subject filter counts only when it
is a non-empty string (JS truthiness of `filters.divisionId &&`), and the
batch comparison runs over the snapshots of the selected division only
(the empty array when none is selected). -/
def processAnalytics (rawData : Option (List FeedbackSnapshot))
    (filters : AnalyticsFilterParams) : ProcessedAnalyticsData :=
  match rawData with
  | none => emptyProcessedAnalyticsData
  | some snapshots =>
    let filteredSnapshotsForBatchComparison : List FeedbackSnapshot :=
      match filters.divisionId with
      | some d =>
        if d = "" then []
        else snapshots.filter (fun s => decide (s.divisionId = d))
      | none => []
    { overallStats := processOverallStats snapshots
      subjectRatings := processSubjectRatings snapshots
      divisionComparisons := processDivisionComparisons snapshots
      facultyPerformance := processFacultyPerformance snapshots
      lectureLabComparison := processLectureLabComparison snapshots
      filteringOptions := getFilteringOptions snapshots
      rawSnapshots := snapshots
      academicYearDepartmentTrends :=
        processAcademicYearDepartmentTrends snapshots
      academicYearSemesterTrends :=
        processAcademicYearSemesterTrends snapshots
      academicYearDivisionPerformance :=
        processAcademicYearDivisionTrends snapshots
      batchComparisons :=
        processDivisionComparisons filteredSnapshotsForBatchComparison
      subjectFacultyPerformance :=
        processSubjectFacultyPerformance snapshots
      subjectFacultyDetailPerformance :=
        match filters.subjectId with
        | some d =>
          if d = "" then none
          else processSubjectFacultyDetailPerformance snapshots d
        | none => none }

/-- Which drill-down panel is active. -/
inductive PanelKind
  | subject
  | faculty
  | division
deriving DecidableEq

/-- State of the drill-down panels (`DrillDownState`,
src/hooks/useAnalyticsData.ts). -/
structure DrillDownState where
  activePanel : Option PanelKind
  subjectId : Option String
  subjectName : Option String
  facultyId : Option String
  facultyName : Option String
  divisionId : Option String
  divisionName : Option String
deriving DecidableEq

/-- The `initialDrillDownState` constant: no panel open, every id and name null. -/
def initialDrillDownState : DrillDownState :=
  { activePanel := none
    subjectId := none
    subjectName := none
    facultyId := none
    facultyName := none
    divisionId := none
    divisionName := none }

/-- Operation `openSubjectPanel`: reset to the initial state, then open the
subject panel with the given id and name. -/
def openSubjectPanel (id name : String) (_s : DrillDownState) :
    DrillDownState :=
  { initialDrillDownState with
    activePanel := some PanelKind.subject
    subjectId := some id
    subjectName := some name }

/-- Operation `openFacultyPanel`. -/
def openFacultyPanel (id name : String) (_s : DrillDownState) :
    DrillDownState :=
  { initialDrillDownState with
    activePanel := some PanelKind.faculty
    facultyId := some id
    facultyName := some name }

/-- Operation `openDivisionPanel`. -/
def openDivisionPanel (id name : String) (_s : DrillDownState) :
    DrillDownState :=
  { initialDrillDownState with
    activePanel := some PanelKind.division
    divisionId := some id
    divisionName := some name }

/-- Operation `closePanel`: back to the initial state. -/
def closePanel (_s : DrillDownState) : DrillDownState :=
  initialDrillDownState

/-- Operation `navigateToSubject`: keep the previous state, switch the active
panel to the subject panel with the given id and name. -/
def navigateToSubject (id name : String) (s : DrillDownState) :
    DrillDownState :=
  { s with
    activePanel := some PanelKind.subject
    subjectId := some id
    subjectName := some name }

/-- Operation `navigateToFaculty`. -/
def navigateToFaculty (id name : String) (s : DrillDownState) :
    DrillDownState :=
  { s with
    activePanel := some PanelKind.faculty
    facultyId := some id
    facultyName := some name }

/-- Operation `navigateToDivision`. -/
def navigateToDivision (id name : String) (s : DrillDownState) :
    DrillDownState :=
  { s with
    activePanel := some PanelKind.division
    divisionId := some id
    divisionName := some name }

/-- One invocation of a drill-down operation with its (non-null) string
arguments. -/
inductive DrillStep
  | openSubject (id name : String)
  | openFaculty (id name : String)
  | openDivision (id name : String)
  | navSubject (id name : String)
  | navFaculty (id name : String)
  | navDivision (id name : String)
  | close

/-- Apply one drill-down operation to a state. -/
def applyDrillStep (st : DrillStep) (s : DrillDownState) : DrillDownState :=
  match st with
  | DrillStep.openSubject id name => openSubjectPanel id name s
  | DrillStep.openFaculty id name => openFacultyPanel id name s
  | DrillStep.openDivision id name => openDivisionPanel id name s
  | DrillStep.navSubject id name => navigateToSubject id name s
  | DrillStep.navFaculty id name => navigateToFaculty id name s
  | DrillStep.navDivision id name => navigateToDivision id name s
  | DrillStep.close => closePanel s

/-- Run a sequence of drill-down operations from the initial state. -/
def runDrillSteps (steps : List DrillStep) : DrillDownState :=
  steps.foldl (fun s st => applyDrillStep st s) initialDrillDownState

/-- The panel/id consistency invariant on drill-down states: an open
panel always has its id set. -/
def drillDownInvariant (s : DrillDownState) : Prop :=
  (s.activePanel = some PanelKind.subject → s.subjectId ≠ none) ∧
  (s.activePanel = some PanelKind.faculty → s.facultyId ≠ none) ∧
  (s.activePanel = some PanelKind.division → s.divisionId ≠ none)

/-- The filter keys of `AnalyticsFilterParams`. -/
inductive FilterKey
  | academicYearId
  | departmentId
  | semesterId
  | divisionId
  | subjectId
deriving DecidableEq

/-- The spread update of one filter key, as in the source handler. -/
def setFilterKey (f : AnalyticsFilterParams) (k : FilterKey)
    (v : Option String) : AnalyticsFilterParams :=
  match k with
  | FilterKey.academicYearId => { f with academicYearId := v }
  | FilterKey.departmentId => { f with departmentId := v }
  | FilterKey.semesterId => { f with semesterId := v }
  | FilterKey.divisionId => { f with divisionId := v }
  | FilterKey.subjectId => { f with subjectId := v }

/-- Handler `handleFilterChange` (src/app/(main)/executive/page.tsx): set the
key, then clear dependent filters when a parent changes (academic year
clears department and semester; department clears semester). -/
def handleFilterChange (f : AnalyticsFilterParams) (k : FilterKey)
    (v : Option String) : AnalyticsFilterParams :=
  let newFilters := setFilterKey f k v
  match k with
  | FilterKey.academicYearId =>
    { newFilters with departmentId := none, semesterId := none }
  | FilterKey.departmentId => { newFilters with semesterId := none }
  | _ => newFilters

/-- A character that forces CSV quoting: comma, newline, double quote or
carriage return (`escapeCSV`, src/utils/analyticsExport.ts). -/
def isSpecialCSVChar (c : Char) : Bool :=
  c = ',' || c = '\n' || c = '"' || c = '\r'

/-- Whether the string (as a character list) contains a character that
forces quoting. -/
def hasSpecialCSVChar (v : List Char) : Bool :=
  v.any isSpecialCSVChar

/-- Double every double quote, as the replace call of `escapeCSV` does. -/
def doubleQuotes : List Char → List Char
  | [] => []
  | c :: cs =>
    if c = '"' then '"' :: '"' :: doubleQuotes cs else c :: doubleQuotes cs

/-- Function `escapeCSV` (src/utils/analyticsExport.ts): if the value contains a
comma, newline, quote or carriage return, wrap it in double quotes with
every embedded double quote doubled; otherwise return it unchanged.  A
JS string is modelled as its list of characters. -/
def escapeCSV (v : List Char) : List Char :=
  if hasSpecialCSVChar v then '"' :: (doubleQuotes v ++ ['"']) else v

/-- Collapse every doubled double quote back to a single one (the
field-content step of standard CSV field parsing). -/
def collapseDoubledQuotes : List Char → List Char
  | [] => []
  | [c] => [c]
  | c :: d :: cs =>
    if c = '"' ∧ d = '"' then '"' :: collapseDoubledQuotes cs
    else c :: collapseDoubledQuotes (d :: cs)

/-- Standard CSV parsing of a quoted field: strip the outer quotes and
collapse doubled quotes. -/
def csvUnquote (v : List Char) : List Char :=
  collapseDoubledQuotes ((v.drop 1).dropLast)

/-- A top/bottom performer row of the executive dashboard. -/
structure Performer where
  id : String
  name : String
  rating : ℚ
  responses : Nat
  trend : ℚ
deriving DecidableEq

/-- Priority of a generated insight. -/
inductive InsightPriority
  | high
  | medium
  | low
deriving DecidableEq

/-- One generated insight of the executive dashboard. -/
structure Insight where
  priority : InsightPriority
  title : String
  description : String
  action : Option String
deriving DecidableEq

/-- One bucket of the faculty rating distribution. -/
structure FacultyDistributionEntry where
  label : String
  value : Nat
  color : String
deriving DecidableEq

/-- One point of the per-semester trend chart. -/
structure SemesterPoint where
  semester : Nat
  rating : ℚ
  label : String
deriving DecidableEq

/-- One subject performer row. -/
structure SubjectPerformer where
  id : String
  name : String
  rating : ℚ
  responses : Nat
deriving DecidableEq

/-- One point of the per-academic-year trend chart. -/
structure YearTrendPoint where
  year : String
  rating : ℚ
  responses : Nat
deriving DecidableEq

/-- One bar of the department comparison chart. -/
structure DeptComparisonPoint where
  name : String
  rating : ℚ
  responses : Nat
deriving DecidableEq

/-- The derived metrics record of the executive dashboard. -/
structure Metrics where
  healthScore : ℚ
  healthTrend : ℚ
  responseRate : ℤ
  totalResponses : Nat
  totalFaculty : Nat
  totalSubjects : Nat
  totalDivisions : Nat
  totalDepartments : Nat
  aboveAvgFaculty : Nat
  aboveAvgSubjects : Nat
  topPerformers : List Performer
  bottomPerformers : List Performer
  insights : List Insight
  facultyDistribution : List FacultyDistributionEntry
  semesterTrends : List SemesterPoint
  subjectPerformers : List SubjectPerformer
  academicYearTrends : List YearTrendPoint
  departmentComparison : List DeptComparisonPoint
deriving DecidableEq

/-- The all-zero metrics record returned when no processed or raw data
is available. -/
def emptyMetrics : Metrics :=
  { healthScore := 0
    healthTrend := 0
    responseRate := 0
    totalResponses := 0
    totalFaculty := 0
    totalSubjects := 0
    totalDivisions := 0
    totalDepartments := 0
    aboveAvgFaculty := 0
    aboveAvgSubjects := 0
    topPerformers := []
    bottomPerformers := []
    insights := []
    facultyDistribution := []
    semesterTrends := []
    subjectPerformers := []
    academicYearTrends := []
    departmentComparison := [] }

/-- JS `x.toFixed(1)` as a string, for insight descriptions (used on
non-negative quantities only). -/
def ratToFixed1Str (q : ℚ) : String :=
  let n : ℤ := round (10 * q)
  (if n < 0 then "-" else "") ++
    toString (n.natAbs / 10) ++ "." ++ toString (n.natAbs % 10)

/-- JS `Math.max` over a list (0 for the empty list; only used on non-empty
lists). -/
def listMaxQ : List ℚ → ℚ
  | [] => 0
  | x :: xs => xs.foldl max x

/-- JS `Math.min` over a list (0 for the empty list; only used on non-empty
lists). -/
def listMinQ : List ℚ → ℚ
  | [] => 0
  | x :: xs => xs.foldl min x

/-- The `metrics` computation of the executive dashboard
(src/app/(main)/executive/page.tsx, the `useMemo` at lines 620-845),
translated clause by clause.  `rawDataPresent` models the truthiness of
`rawData`, which the body only null-checks. -/
def metrics (processedData : Option ProcessedAnalyticsData)
    (rawDataPresent : Bool) : Metrics :=
  match processedData, rawDataPresent with
  | some pd, true =>
    let stats := pd.overallStats
    let facultyData := pd.facultyPerformance
    let subjectData := pd.subjectRatings
    let divisionData := pd.divisionComparisons
    let yearSemesterTrends := pd.academicYearSemesterTrends
    let yearDepartmentTrends := pd.academicYearDepartmentTrends
    let healthScore : ℚ :=
      match stats with | some st => st.averageRating | none => 0
    let totalDepartments : Nat :=
      match stats with | some st => st.uniqueDepartments | none => 0
    let statsTotalResponses : Nat :=
      match stats with | some st => st.totalResponses | none => 0
    let avgFacultyRating : ℚ :=
      if 0 < facultyData.length then
        facultyData.foldl (fun a b => a + b.averageRating) 0 /
          (facultyData.length : ℚ)
      else 0
    let aboveAvgFaculty :=
      (facultyData.filter
        (fun f => decide (avgFacultyRating ≤ f.averageRating))).length
    let validSubjectRatings :=
      subjectData.filter (fun s => decide (s.overallAverageRating ≠ none))
    let avgSubjectRating : ℚ :=
      if 0 < validSubjectRatings.length then
        validSubjectRatings.foldl
          (fun a b => a + b.overallAverageRating.getD 0) 0 /
          (validSubjectRatings.length : ℚ)
      else 0
    let aboveAvgSubjects :=
      (subjectData.filter
        (fun s => decide (avgSubjectRating ≤ s.overallAverageRating.getD 0))).length
    let sortedFaculty :=
      facultyData.insertionSort (fun a b => b.averageRating ≤ a.averageRating)
    let facultyTrend : FacultyPerformanceEntry → ℚ := fun f =>
      toFixed1 ((f.averageRating - avgFacultyRating) / avgFacultyRating * 100)
    let topPerformers := (sortedFaculty.take 5).map (fun f =>
      { id := f.facultyId
        name := f.facultyName
        rating := f.averageRating
        responses := f.totalResponses
        trend := facultyTrend f : Performer })
    let bottomPerformers :=
      ((sortedFaculty.drop (sortedFaculty.length - 5)).reverse).map (fun f =>
        { id := f.facultyId
          name := f.facultyName
          rating := f.averageRating
          responses := f.totalResponses
          trend := facultyTrend f : Performer })
    let sortedSubjects :=
      (subjectData.filter
        (fun s => decide (s.overallAverageRating ≠ none))).insertionSort
        (fun a b => b.overallAverageRating.getD 0 ≤ a.overallAverageRating.getD 0)
    let subjectPerformers := (sortedSubjects.take 5).map (fun s =>
      { id := s.subjectId
        name := s.subjectName
        rating := s.overallAverageRating.getD 0
        responses := s.totalOverallResponses : SubjectPerformer })
    let excellent :=
      (facultyData.filter
        (fun f => decide ((4.5 : ℚ) ≤ f.averageRating))).length
    let good :=
      (facultyData.filter (fun f =>
        decide ((4.0 : ℚ) ≤ f.averageRating ∧ f.averageRating < (4.5 : ℚ)))).length
    let averageBucket :=
      (facultyData.filter (fun f =>
        decide ((3.5 : ℚ) ≤ f.averageRating ∧ f.averageRating < (4.0 : ℚ)))).length
    let needsWork :=
      (facultyData.filter
        (fun f => decide (f.averageRating < (3.5 : ℚ)))).length
    let facultyDistribution : List FacultyDistributionEntry :=
      [{ label := "Excellent (4.5+)", value := excellent,
         color := "bg-positive-main" },
       { label := "Good (4.0-4.5)", value := good,
         color := "bg-highlight1-main" },
       { label := "Average (3.5-4.0)", value := averageBucket,
         color := "bg-warning-main" },
       { label := "Needs Improvement (<3.5)", value := needsWork,
         color := "bg-negative-main" }]
    let semesterTrends :=
      (yearSemesterTrends.map (fun tr =>
        { semester := tr.semesterNumber
          rating := ((tr.academicYearData.getLast?).map
            (·.averageRating)).getD 0
          label := "Sem " ++ toString tr.semesterNumber
          : SemesterPoint })).insertionSort
        (fun a b => a.semester ≤ b.semester)
    let academicYearTrends : List YearTrendPoint :=
      yearDepartmentTrends.map (fun tr =>
        let totalRating : ℚ := tr.departmentData.foldl
          (fun sum d => sum + d.averageRating * (d.responseCount : ℚ)) 0
        let totalResponsesOfYear : Nat := tr.departmentData.foldl
          (fun sum d => sum + d.responseCount) 0
        let avgRating : ℚ :=
          if 0 < totalResponsesOfYear then
            totalRating / (totalResponsesOfYear : ℚ)
          else 0
        { year := tr.academicYearString
          rating := toFixed2 avgRating
          responses := totalResponsesOfYear })
    let departmentComparison : List DeptComparisonPoint :=
      ((yearDepartmentTrends.getLast?).map (fun tr =>
        tr.departmentData.map (fun d =>
          { name := d.departmentName
            rating := d.averageRating
            responses := d.responseCount : DeptComparisonPoint }))).getD []
    let healthTrend : ℚ :=
      if 2 ≤ academicYearTrends.length then
        let current :=
          ((academicYearTrends.getLast?).map (·.rating)).getD 0
        let previous :=
          ((academicYearTrends.get? (academicYearTrends.length - 2)).map
            (·.rating)).getD 0
        if 0 < previous then toFixed1 ((current - previous) / previous * 100)
        else 0
      else 0
    let uniqueStudents : Nat :=
      match stats with | some st => st.uniqueStudents | none => 0
    let responseRate : ℤ :=
      if 0 < uniqueStudents then
        min 100 (jsRound ((statsTotalResponses : ℚ) /
          (uniqueStudents : ℚ) * 10))
      else 0
    let ins1 : List Insight :=
      if 0 < needsWork then
        [{ priority :=
             if 3 < needsWork then InsightPriority.high
             else InsightPriority.medium
           title := toString needsWork ++ " Faculty Need Attention"
           description :=
             toString (jsRound ((needsWork : ℚ) /
               (facultyData.length : ℚ) * 100)) ++
             "% of faculty have ratings below 3.5. Consider mentoring programs."
           action := some "View Details" }]
      else []
    let ins2 : List Insight :=
      if healthTrend < -5 then
        [{ priority := InsightPriority.high
           title := "Declining Performance Trend"
           description :=
             "Overall ratings dropped by " ++ ratToFixed1Str |healthTrend| ++
             "% from previous period."
           action := some "Analyze Causes" }]
      else []
    let ins3 : List Insight :=
      if (facultyData.length : ℚ) * (0.3 : ℚ) < (excellent : ℚ) ∧
          0 < facultyData.length then
        [{ priority := InsightPriority.low
           title := "Strong Faculty Performance"
           description :=
             toString (jsRound ((excellent : ℚ) /
               (facultyData.length : ℚ) * 100)) ++
             "% of faculty have excellent ratings (4.5+)."
           action := some "Recognize Top Performers" }]
      else []
    let ins4 : List Insight :=
      match stats with
      | some st =>
        if 0 < st.totalResponses ∧ st.totalResponses < 50 then
          [{ priority := InsightPriority.medium
             title := "Low Response Volume"
             description :=
               toString st.totalResponses ++
               " responses collected. Consider extending feedback window."
             action := some "View Response Status" }]
        else []
      | none => []
    let ins5 : List Insight :=
      if 1 < departmentComparison.length then
        let ratings := departmentComparison.map (·.rating)
        let maxRating := listMaxQ ratings
        let minRating := listMinQ ratings
        if 1 < maxRating - minRating then
          [{ priority := InsightPriority.medium
             title := "Department Performance Gap"
             description :=
               ((departmentComparison.find?
                 (fun d => decide (d.rating = minRating))).map
                 (·.name)).getD "A department" ++
               " is " ++ ratToFixed1Str (maxRating - minRating) ++
               " points below top performer."
             action := some "Compare Departments" }]
        else []
      else []
    let insBase := ins1 ++ ins2 ++ ins3 ++ ins4 ++ ins5
    let insights :=
      if insBase.isEmpty then
        [{ priority := InsightPriority.low
           title := "Performance On Track"
           description :=
             "All metrics are within healthy ranges. Keep up the good work!"
           action := none : Insight }]
      else insBase
    { healthScore := healthScore
      healthTrend := healthTrend
      responseRate := responseRate
      totalResponses := statsTotalResponses
      totalFaculty := facultyData.length
      totalSubjects := subjectData.length
      totalDivisions := divisionData.length
      totalDepartments := totalDepartments
      aboveAvgFaculty := aboveAvgFaculty
      aboveAvgSubjects := aboveAvgSubjects
      topPerformers := topPerformers
      bottomPerformers := bottomPerformers
      insights := insights
      facultyDistribution := facultyDistribution
      semesterTrends := semesterTrends
      subjectPerformers := subjectPerformers
      academicYearTrends := academicYearTrends
      departmentComparison := departmentComparison }
  | _, _ => emptyMetrics

/-- A concrete snapshot whose `divisionId` is the empty string. -/
def snapA : FeedbackSnapshot :=
  { studentId := "st1"
    subjectId := "sub1"
    subjectName := "CS101"
    facultyId := "f1"
    facultyName := "Faculty One"
    divisionId := ""
    divisionName := "Unnamed Division"
    departmentId := "dep1"
    departmentName := "CS"
    academicYearId := "y1"
    academicYearString := "2024-25"
    semesterId := "sem1"
    semesterNumber := 1
    lectureType := LectureType.lecture
    rating := some 4
    questionCategoryId := "q1"
    questionCategoryName := "Clarity" }

/-- A concrete ordinary snapshot. -/
def snapB : FeedbackSnapshot :=
  { snapA with divisionId := "d1", divisionName := "Division One" }

/-- Filters selecting the empty string as division id. -/
def filtersDivEmpty : AnalyticsFilterParams := { divisionId := some "" }

/-- Filters selecting division `d1`. -/
def filtersDiv1 : AnalyticsFilterParams := { divisionId := some "d1" }

/-- A processed-data record whose only content is one academic year with
a single department cell of mean 1/3 over 3 responses. -/
def pdThirdMean : ProcessedAnalyticsData :=
  { emptyProcessedAnalyticsData with
    academicYearDepartmentTrends :=
      [{ academicYearId := "y1"
         academicYearString := "2024-25"
         departmentData :=
           [{ departmentId := "dep1"
              departmentName := "CS"
              averageRating := 1 / 3
              responseCount := 3 }] }] }

/-- Concrete overall stats: 30 responses from 5 distinct students. -/
def ovStatsC4 : OverallStats :=
  { totalResponses := 30
    averageRating := 4
    uniqueSubjects := 2
    uniqueFaculty := 2
    uniqueStudents := 5
    uniqueDivisions := 1
    uniqueDepartments := 1 }

/-- A processed-data record carrying `ovStatsC4` as its overall stats. -/
def pdStatsC4 : ProcessedAnalyticsData :=
  { emptyProcessedAnalyticsData with overallStats := some ovStatsC4 }

/-- The overall stats computed from the single snapshot `snapB`. -/
def ovStatsB : OverallStats :=
  { totalResponses := 1
    averageRating := 4
    uniqueSubjects := 1
    uniqueFaculty := 1
    uniqueStudents := 1
    uniqueDivisions := 1
    uniqueDepartments := 1 }

/-- A sample CSV field containing a comma and a double quote. -/
def csvSampleChars : List Char := ['a', ',', '"', 'b']

/-- Folding addition of a projection over a list sums the projected
values. -/
theorem foldl_add_eq_sum {α M : Type} [AddCommMonoid M] (g : α → M)
    (l : List α) : l.foldl (fun acc d => acc + g d) 0 = (l.map g).sum := by
  have h : ∀ (l : List α) (init : M),
      l.foldl (fun acc d => acc + g d) init = init + (l.map g).sum := by
    intro l
    induction l with
    | nil => intro init; simp
    | cons a as ih => intro init; simp [ih, add_assoc]
  simpa using h l 0

/-- Rounding a non-negative rational is non-negative. -/
theorem round_nonneg_of_nonneg (q : ℚ) (h : 0 ≤ q) : 0 ≤ round q := by
  rw [round_eq]
  have : (0 : ℚ) ≤ q + 1 / 2 := by linarith
  exact_mod_cast Int.le_floor.mpr (by exact_mod_cast this)

/-- Claim C9: frame effect of `handleFilterChange`.  Changing the
academic year sets the department and semester to undefined and leaves
every other field unchanged; changing the department clears only the
semester; changing any other key changes only that key. -/
theorem handleFilterChange_frame (f : AnalyticsFilterParams)
    (v : Option String) :
    handleFilterChange f FilterKey.academicYearId v =
      { f with academicYearId := v, departmentId := none,
               semesterId := none } ∧
    handleFilterChange f FilterKey.departmentId v =
      { f with departmentId := v, semesterId := none } ∧
    handleFilterChange f FilterKey.semesterId v = { f with semesterId := v } ∧
    handleFilterChange f FilterKey.divisionId v = { f with divisionId := v } ∧
    handleFilterChange f FilterKey.subjectId v = { f with subjectId := v } :=
  ⟨rfl, rfl, rfl, rfl, rfl⟩

/-- Claim C7: the derived-metrics computation is deterministic — equal
processed-data and raw-data inputs give equal outputs; `metrics` is a
pure function of its two arguments with no other state. -/
theorem metrics_deterministic (pd1 pd2 : Option ProcessedAnalyticsData)
    (b1 b2 : Bool) (hpd : pd1 = pd2) (hb : b1 = b2) :
    metrics pd1 b1 = metrics pd2 b2 := by
  subst hpd
  subst hb
  rfl

/-- Witness for claim C7 at a concrete input. -/
theorem metrics_deterministic_witness :
    metrics (some emptyProcessedAnalyticsData) true =
      metrics (some emptyProcessedAnalyticsData) true :=
  metrics_deterministic (some emptyProcessedAnalyticsData)
    (some emptyProcessedAnalyticsData) true true rfl rfl

/-- Claim C8: every drill-down state reachable from the initial state
has an id for its active panel, and `closePanel` always restores the
initial state. -/
theorem drillDown_invariant_spec :
    (∀ steps : List DrillStep, drillDownInvariant (runDrillSteps steps)) ∧
    (∀ s : DrillDownState,
      applyDrillStep DrillStep.close s = initialDrillDownState) := by
  constructor
  · intro steps
    have hstep : ∀ (st : DrillStep) (s : DrillDownState),
        drillDownInvariant s → drillDownInvariant (applyDrillStep st s) := by
      intro st s h
      cases st <;>
        simp_all [applyDrillStep, openSubjectPanel, openFacultyPanel,
          openDivisionPanel, closePanel, navigateToSubject, navigateToFaculty,
          navigateToDivision, drillDownInvariant, initialDrillDownState]
    have haux : ∀ (l : List DrillStep) (s : DrillDownState),
        drillDownInvariant s →
        drillDownInvariant (l.foldl (fun s st => applyDrillStep st s) s) := by
      intro l
      induction l with
      | nil => intro s h; exact h
      | cons st rest ih => intro s h; exact ih _ (hstep st s h)
    exact haux steps initialDrillDownState
      (by simp [drillDownInvariant, initialDrillDownState])
  · intro s
    rfl

/-- Doubling quotes never shortens a string. -/
theorem length_le_doubleQuotes (v : List Char) :
    v.length ≤ (doubleQuotes v).length := by
  induction v with
  | nil => simp [doubleQuotes]
  | cons c cs ih =>
    by_cases hc : c = '"'
    · simp only [doubleQuotes, if_pos hc, List.length_cons]
      omega
    · simp only [doubleQuotes, if_neg hc, List.length_cons]
      omega

/-- Collapsing doubled quotes steps over a non-quote head character. -/
theorem collapseDoubledQuotes_cons_ne (c : Char) (hc : c ≠ '"')
    (l : List Char) :
    collapseDoubledQuotes (c :: l) = c :: collapseDoubledQuotes l := by
  cases l with
  | nil => rfl
  | cons d ds =>
    simp only [collapseDoubledQuotes]
    rw [if_neg (fun h => hc h.1)]

/-- Collapsing a leading doubled quote yields one quote. -/
theorem collapseDoubledQuotes_qq (l : List Char) :
    collapseDoubledQuotes ('"' :: '"' :: l) = '"' :: collapseDoubledQuotes l := by
  simp [collapseDoubledQuotes]

/-- Collapsing doubled quotes inverts doubling them. -/
theorem collapse_doubleQuotes (v : List Char) :
    collapseDoubledQuotes (doubleQuotes v) = v := by
  induction v with
  | nil => rfl
  | cons c cs ih =>
    by_cases hc : c = '"'
    · subst hc
      rw [show doubleQuotes ('"' :: cs) = '"' :: '"' :: doubleQuotes cs from
        by simp [doubleQuotes]]
      rw [collapseDoubledQuotes_qq, ih]
    · rw [show doubleQuotes (c :: cs) = c :: doubleQuotes cs from
        by simp [doubleQuotes, hc]]
      rw [collapseDoubledQuotes_cons_ne c hc, ih]

/-- Claim C10: `escapeCSV` returns its input unchanged exactly when the
input has no comma, double quote, newline or carriage return; otherwise
it wraps the input in double quotes with embedded quotes doubled, and
standard CSV field parsing (strip the outer quotes, collapse doubled
quotes) recovers the input exactly. -/
theorem escapeCSV_spec (v : List Char) :
    (escapeCSV v = v ↔ hasSpecialCSVChar v = false) ∧
    (hasSpecialCSVChar v = true →
      escapeCSV v = '"' :: (doubleQuotes v ++ ['"']) ∧
      csvUnquote (escapeCSV v) = v) := by
  constructor
  · constructor
    · intro heq
      by_contra hne
      have hsp : hasSpecialCSVChar v = true := by
        cases h : hasSpecialCSVChar v
        · exact absurd h hne
        · rfl
      have hesc : escapeCSV v = '"' :: (doubleQuotes v ++ ['"']) := by
        simp [escapeCSV, hsp]
      have h2 := heq
      rw [hesc] at h2
      have h3 := congrArg List.length h2
      simp [List.length_append] at h3
      have hge := length_le_doubleQuotes v
      omega
    · intro hns
      simp [escapeCSV, hns]
  · intro hsp
    have hesc : escapeCSV v = '"' :: (doubleQuotes v ++ ['"']) := by
      simp [escapeCSV, hsp]
    refine ⟨hesc, ?_⟩
    rw [hesc]
    show collapseDoubledQuotes
      ((('"' :: (doubleQuotes v ++ ['"'])).drop 1).dropLast) = v
    simp only [List.drop_succ_cons, List.drop_zero, List.dropLast_concat]
    exact collapse_doubleQuotes v

/-- Witness for claim C10 at a concrete field. -/
theorem escapeCSV_spec_witness :
    csvUnquote (escapeCSV csvSampleChars) = csvSampleChars :=
  ((escapeCSV_spec csvSampleChars).2 (by decide)).2

/-- Claim C2: with no fetched data, and likewise with an empty snapshot
array, every view of the processed-analytics record is the empty list or
null; the computation is total, so no exception is possible. -/
theorem processAnalytics_empty_input (filters : AnalyticsFilterParams) :
    processAnalytics none filters = emptyProcessedAnalyticsData ∧
    processAnalytics (some []) filters = emptyProcessedAnalyticsData := by
  refine ⟨rfl, ?_⟩
  obtain ⟨ay, dep, sem, dv, sb⟩ := filters
  simp only [processAnalytics]
  cases dv <;> cases sb <;>
    simp [processOverallStats, processSubjectRatings,
      processDivisionComparisons, processFacultyPerformance,
      processLectureLabComparison, getFilteringOptions,
      processAcademicYearDepartmentTrends, processAcademicYearSemesterTrends,
      processAcademicYearDivisionTrends, processSubjectFacultyPerformance,
      processSubjectFacultyDetailPerformance, distinctBy, snapshotsWith,
      emptyProcessedAnalyticsData]

/-- Claim C3: `processOverallStats` is null exactly on the empty
snapshot list; otherwise the response count is the list length, the
average is the mean of the non-null ratings, and the distinct counts are
the set-cardinalities of the respective id fields. -/
theorem processOverallStats_spec :
    (∀ l : List FeedbackSnapshot, processOverallStats l = none ↔ l = []) ∧
    (∀ (l : List FeedbackSnapshot) (st : OverallStats),
      processOverallStats l = some st →
        st.totalResponses = l.length ∧
        st.averageRating =
          (l.filterMap (·.rating)).sum /
            ((l.filterMap (·.rating)).length : ℚ) ∧
        st.uniqueSubjects = (l.map (·.subjectId)).toFinset.card ∧
        st.uniqueFaculty = (l.map (·.facultyId)).toFinset.card ∧
        st.uniqueStudents = (l.map (·.studentId)).toFinset.card ∧
        st.uniqueDivisions = (l.map (·.divisionId)).toFinset.card ∧
        st.uniqueDepartments = (l.map (·.departmentId)).toFinset.card) := by
  constructor
  · intro l
    cases l <;> simp [processOverallStats]
  · intro l st h
    cases l with
    | nil => simp [processOverallStats] at h
    | cons a as =>
      rw [processOverallStats] at h
      have hst := (Option.some.injEq _ _).mp h
      subst hst
      refine ⟨rfl, rfl, ?_, ?_, ?_, ?_, ?_⟩ <;>
        (rw [List.card_toFinset]; rfl)

/-- Witness for claim C3 at a concrete non-empty snapshot list. -/
theorem processOverallStats_spec_witness :
    ovStatsB.totalResponses = [snapB].length ∧
    ovStatsB.averageRating =
      ([snapB].filterMap (·.rating)).sum /
        (([snapB].filterMap (·.rating)).length : ℚ) ∧
    ovStatsB.uniqueSubjects = ([snapB].map (·.subjectId)).toFinset.card ∧
    ovStatsB.uniqueFaculty = ([snapB].map (·.facultyId)).toFinset.card ∧
    ovStatsB.uniqueStudents = ([snapB].map (·.studentId)).toFinset.card ∧
    ovStatsB.uniqueDivisions = ([snapB].map (·.divisionId)).toFinset.card ∧
    ovStatsB.uniqueDepartments =
      ([snapB].map (·.departmentId)).toFinset.card :=
  processOverallStats_spec.2 [snapB] ovStatsB
    (by simp [processOverallStats, ovStatsB, meanRatings, validRatings,
      ratingCount, distinctBy, snapB, snapA, List.filterMap_cons])

/-- Counterexample for claim C5 as stated: with the empty string
selected as division id (a string), the snapshots whose divisionId
equals the filter are not passed to the division comparison — the code
computes it over the empty array instead. -/
theorem batchComparisons_empty_string_counterexample :
    (processAnalytics (some [snapA]) filtersDivEmpty).batchComparisons = [] ∧
    processDivisionComparisons
      ([snapA].filter (fun s => decide (s.divisionId = ""))) ≠ [] := by
  constructor
  · rfl
  · decide

/-- Claim C5 (amended): when the division filter is a NON-EMPTY string,
the batch comparison is the division comparison of exactly the snapshots
with that division id; when the filter is unset or the empty string it
is computed over the empty array, hence empty. -/
theorem batchComparisons_spec :
    (∀ (snaps : List FeedbackSnapshot) (filters : AnalyticsFilterParams)
      (d : String), filters.divisionId = some d → d ≠ "" →
      (processAnalytics (some snaps) filters).batchComparisons =
        processDivisionComparisons
          (snaps.filter (fun s => decide (s.divisionId = d)))) ∧
    (∀ (snaps : List FeedbackSnapshot) (filters : AnalyticsFilterParams),
      filters.divisionId = none ∨ filters.divisionId = some "" →
      (processAnalytics (some snaps) filters).batchComparisons =
        processDivisionComparisons []) ∧
    processDivisionComparisons [] = [] := by
  refine ⟨?_, ?_, rfl⟩
  · intro snaps filters d hdiv hne
    have hproj : (processAnalytics (some snaps) filters).batchComparisons =
        processDivisionComparisons
          (match filters.divisionId with
           | some d => if d = "" then []
             else snaps.filter (fun s => decide (s.divisionId = d))
           | none => []) := rfl
    rw [hproj, hdiv]
    simp [hne]
  · intro snaps filters hdiv
    have hproj : (processAnalytics (some snaps) filters).batchComparisons =
        processDivisionComparisons
          (match filters.divisionId with
           | some d => if d = "" then []
             else snaps.filter (fun s => decide (s.divisionId = d))
           | none => []) := rfl
    rw [hproj]
    rcases hdiv with h | h
    · rw [h]
    · rw [h]
      simp

/-- Witness for claim C5 (amended) at a concrete division filter. -/
theorem batchComparisons_spec_witness :
    (processAnalytics (some [snapB]) filtersDiv1).batchComparisons =
      processDivisionComparisons
        ([snapB].filter (fun s => decide (s.divisionId = "d1"))) :=
  batchComparisons_spec.1 [snapB] filtersDiv1 "d1" rfl (by decide)

/-- Claim C6: the single-subject detail view is null whenever the
subject id does not appear in the snapshots; the hook's detail field is
null whenever no subject filter is selected, and when it is non-null it
was computed for the selected subject id. -/
theorem subjectDetail_null_spec :
    (∀ (snaps : List FeedbackSnapshot) (sid : String),
      sid ∉ snaps.map (·.subjectId) →
      processSubjectFacultyDetailPerformance snaps sid = none) ∧
    (∀ (snaps : List FeedbackSnapshot) (filters : AnalyticsFilterParams),
      filters.subjectId = none →
      (processAnalytics (some snaps) filters).subjectFacultyDetailPerformance
        = none) ∧
    (∀ (snaps : List FeedbackSnapshot) (filters : AnalyticsFilterParams)
      (v : SubjectFacultyDetailPerformance),
      (processAnalytics (some snaps) filters).subjectFacultyDetailPerformance
        = some v →
      ∃ d, filters.subjectId = some d ∧
        processSubjectFacultyDetailPerformance snaps d = some v) := by
  refine ⟨?_, ?_, ?_⟩
  · intro snaps sid h
    rw [processSubjectFacultyDetailPerformance, if_neg h]
  · intro snaps filters h
    have hproj :
        (processAnalytics (some snaps) filters).subjectFacultyDetailPerformance
          = (match filters.subjectId with
             | some d => if d = "" then none
               else processSubjectFacultyDetailPerformance snaps d
             | none => none) := rfl
    rw [hproj, h]
  · intro snaps filters v h
    have hproj :
        (processAnalytics (some snaps) filters).subjectFacultyDetailPerformance
          = (match filters.subjectId with
             | some d => if d = "" then none
               else processSubjectFacultyDetailPerformance snaps d
             | none => none) := rfl
    rw [hproj] at h
    cases hs : filters.subjectId with
    | none => rw [hs] at h; exact absurd h (by simp)
    | some d =>
      rw [hs] at h
      by_cases hd : d = ""
      · subst hd
        simp at h
      · refine ⟨d, rfl, ?_⟩
        simpa [hd] using h

/-- Witness for claim C6 at a concrete absent subject id. -/
theorem subjectDetail_null_spec_witness :
    processSubjectFacultyDetailPerformance [] "missing-id" = none :=
  subjectDetail_null_spec.1 [] "missing-id" (by simp)

/-- The response-rate clause of `metrics`, extracted definitionally. -/
theorem metrics_responseRate_eq (pd : ProcessedAnalyticsData) :
    (metrics (some pd) true).responseRate =
      (if 0 < (match pd.overallStats with
               | some st => st.uniqueStudents
               | none => 0) then
        min 100 (jsRound
          ((((match pd.overallStats with
              | some st => st.totalResponses
              | none => 0) : Nat) : ℚ) /
            (((match pd.overallStats with
               | some st => st.uniqueStudents
               | none => 0) : Nat) : ℚ) * 10))
      else 0) := rfl

/-- Claim C4: when overall stats are available the executive response
rate is responses divided by ten times the distinct students, rounded
and capped at 100; it is 0 when there are no distinct students; and it
always lies between 0 and 100. -/
theorem metrics_responseRate_spec (pd : ProcessedAnalyticsData)
    (st : OverallStats) (h : pd.overallStats = some st) :
    (0 < st.uniqueStudents →
      (metrics (some pd) true).responseRate =
        min 100 (round (((st.totalResponses : ℚ) * 10) /
          (st.uniqueStudents : ℚ)))) ∧
    (st.uniqueStudents = 0 → (metrics (some pd) true).responseRate = 0) ∧
    (∀ (pdo : Option ProcessedAnalyticsData) (b : Bool),
      0 ≤ (metrics pdo b).responseRate ∧
        (metrics pdo b).responseRate ≤ 100) := by
  refine ⟨?_, ?_, ?_⟩
  · intro hu
    rw [metrics_responseRate_eq, h]
    rw [if_pos hu]
    have harg : ((st.totalResponses : ℚ)) / (st.uniqueStudents : ℚ) * 10 =
        ((st.totalResponses : ℚ) * 10) / (st.uniqueStudents : ℚ) :=
      div_mul_eq_mul_div _ _ _
    rw [jsRound, harg]
  · intro hu
    rw [metrics_responseRate_eq, h]
    simp [hu]
  · intro pdo b
    cases pdo with
    | none =>
      constructor <;> simp [metrics, emptyMetrics]
    | some pd2 =>
      cases b with
      | false => constructor <;> simp [metrics, emptyMetrics]
      | true =>
        rw [metrics_responseRate_eq pd2]
        by_cases hu : 0 < (match pd2.overallStats with
          | some st2 => st2.uniqueStudents
          | none => 0)
        · rw [if_pos hu]
          have hnn : (0 : ℚ) ≤
              (((match pd2.overallStats with
                 | some st2 => st2.totalResponses
                 | none => 0) : Nat) : ℚ) /
                (((match pd2.overallStats with
                   | some st2 => st2.uniqueStudents
                   | none => 0) : Nat) : ℚ) * 10 := by positivity
          constructor
          · exact le_min (by norm_num)
              (round_nonneg_of_nonneg _ hnn)
          · exact min_le_left _ _
        · rw [if_neg hu]
          constructor <;> norm_num

/-- Witness for claim C4 at concrete overall stats. -/
theorem metrics_responseRate_spec_witness :
    (metrics (some pdStatsC4) true).responseRate =
      min 100 (round (((ovStatsC4.totalResponses : ℚ) * 10) /
        (ovStatsC4.uniqueStudents : ℚ))) :=
  (metrics_responseRate_spec pdStatsC4 ovStatsC4 rfl).1 (by decide)

/-- Counterexample for claim C1 as stated: with one department cell of
mean 1/3 over 3 responses, the year's weighted mean is 1/3 but the
dashboard stores the value rounded to two decimal places, 33/100. -/
theorem yearTrends_rounding_counterexample :
    ((metrics (some pdThirdMean) true).academicYearTrends.map
      (fun t => t.rating)) = [(33 : ℚ) / 100] ∧
    ((33 : ℚ) / 100) ≠ (1 : ℚ) / 3 := by
  constructor
  · have hproj : (metrics (some pdThirdMean) true).academicYearTrends =
        pdThirdMean.academicYearDepartmentTrends.map (fun tr =>
          let totalRating : ℚ := tr.departmentData.foldl
            (fun sum d => sum + d.averageRating * (d.responseCount : ℚ)) 0
          let totalResponsesOfYear : Nat := tr.departmentData.foldl
            (fun sum d => sum + d.responseCount) 0
          { year := tr.academicYearString
            rating := toFixed2 (if 0 < totalResponsesOfYear then
              totalRating / (totalResponsesOfYear : ℚ) else 0)
            responses := totalResponsesOfYear }) := rfl
    rw [hproj]
    simp only [pdThirdMean, emptyProcessedAnalyticsData, List.map_cons,
      List.map_nil, List.foldl_cons, List.foldl_nil]
    rw [toFixed2, round_eq]
    norm_num
  · norm_num

/-- Claim C1 (amended): each per-year rating of the executive dashboard
trends is the response-weighted mean of that year's department cells —
sum of mean times count over sum of counts, 0 when the total count is 0
— ROUNDED TO TWO DECIMAL PLACES, and the responses field is the sum of
the cell counts. -/
theorem metrics_academicYearTrends_weighted (pd : ProcessedAnalyticsData) :
    (metrics (some pd) true).academicYearTrends =
      pd.academicYearDepartmentTrends.map (fun tr =>
        { year := tr.academicYearString
          rating := toFixed2
            (if 0 < (tr.departmentData.map (·.responseCount)).sum then
              (tr.departmentData.map
                (fun d => d.averageRating * (d.responseCount : ℚ))).sum /
                (((tr.departmentData.map (·.responseCount)).sum : Nat) : ℚ)
            else 0)
          responses := (tr.departmentData.map (·.responseCount)).sum }) := by
  have hproj : (metrics (some pd) true).academicYearTrends =
      pd.academicYearDepartmentTrends.map (fun tr =>
        let totalRating : ℚ := tr.departmentData.foldl
          (fun sum d => sum + d.averageRating * (d.responseCount : ℚ)) 0
        let totalResponsesOfYear : Nat := tr.departmentData.foldl
          (fun sum d => sum + d.responseCount) 0
        { year := tr.academicYearString
          rating := toFixed2 (if 0 < totalResponsesOfYear then
            totalRating / (totalResponsesOfYear : ℚ) else 0)
          responses := totalResponsesOfYear }) := rfl
  rw [hproj]
  refine List.map_congr_left ?_
  intro tr _
  simp only [foldl_add_eq_sum]
